import Mathlib

/-!
Shallow embedding of `skimage/viewer/widgets/core.py` (PyQt4 GUI widgets:
`BaseWidget`, `Slider`, `ComboBox`).

Modelling conventions:
* Python floats are modelled as exact rationals (`ℚ`); the arithmetic in the
  source (scale computation, step conversion) is plain field arithmetic.
* Python exceptions are modelled with `Except PyErr`; Python float division
  raises `ZeroDivisionError` on a zero divisor, which `pydiv` reflects.
* The Qt toolkit behaviour the handlers depend on is modelled explicitly:
  - `QSlider.setValue` bounds its argument to the slider range and emits the
    `valueChanged` signal only when the stored value actually changes
    (Qt `QAbstractSlider::setValue` semantics); PyQt4 converts a Python float
    argument to a C++ `int` by truncation toward zero (`ratTrunc`).
  - `QSlider.sliderReleased` is emitted only by user interaction, never by a
    programmatic `setValue`.
  - PyQt4 resolves `QComboBox.currentIndexChanged.connect(slot)` to the
    default (first-declared) C++ overload `currentIndexChanged(int)`, so the
    connected slot receives the new index, not the item text.
  - Qt4 `QComboBox` has no method named `value`; the attribute lookup in
    `ComboBox.val` therefore raises `AttributeError`.
* The callback registered on a widget is modelled as an event log: each
  invocation `callback(name, value)` appends `(name, value)` to the log.
* Purely presentational state (layout, label text, the literal text shown in
  the edit box) is not tracked; the edit box error indicator (the stylesheet
  set by `_good_editbox_input` / `_bad_editbox_input`) is tracked as a flag.
-/

/-- Python exceptions raised by the embedded code. -/
inductive PyErr where
  | valueError (msg : String)
  | zeroDivisionError
  | attributeError (msg : String)
  deriving DecidableEq, Repr

/-- Python values that can be passed to a widget callback. -/
inductive PyValue where
  | int (n : ℤ)
  | str (s : String)
  | float (q : ℚ)
  deriving DecidableEq, Repr

/-- Python float division: raises `ZeroDivisionError` when the divisor is
zero, otherwise exact division (floats modelled as rationals). -/
def pydiv (a b : ℚ) : Except PyErr ℚ :=
  if b = 0 then .error .zeroDivisionError else .ok (a / b)

/-- C-style conversion of a floating-point value to an integer: truncation
toward zero.  PyQt4 applies this when a Python float is passed where a C++
`int` parameter is expected (e.g. `QSlider.setValue`). -/
def ratTrunc (q : ℚ) : ℤ :=
  if 0 ≤ q then ⌊q⌋ else ⌈q⌉

/-- Qt `qBound lo v hi`: clamp `v` into `[lo, hi]`, as
`QAbstractSlider::setValue` does with the slider range. -/
def qtBound (lo hi v : ℤ) : ℤ :=
  max lo (min hi v)

/-- Which Qt signal the `Slider` connected `_on_slider_changed` to
(source lines 105-110): `valueChanged` for `update_on='move'`,
`sliderReleased` for `update_on='release'`. -/
inductive UpdateOn where
  | move
  | release
  deriving DecidableEq, Repr

/-- State of a `Slider` widget (fields of the Python object together with the
state of its child `QSlider` and `QLineEdit`, and the callback event log). -/
structure SliderState where
  /-- `BaseWidget.name`. -/
  name : String
  /-- `BaseWidget.ptype`. -/
  ptype : String
  /-- `Slider._low`. -/
  low : ℚ
  /-- `Slider._high`. -/
  high : ℚ
  /-- `Slider._scale`, set once in the constructor to `(high - low) / 1000`. -/
  scale : ℚ
  /-- `self.slider.value()`: the `QSlider` position, an integer step; the
  constructor sets the range to `[0, 1000]`. -/
  step : ℤ
  /-- Which signal `_on_slider_changed` is connected to. -/
  updateOn : UpdateOn
  /-- Whether the edit box currently shows the error stylesheet
  (`rgb(255, 200, 200)`), i.e. `_bad_editbox_input` ran last. -/
  editboxError : Bool
  /-- Log of callback invocations `(name, value)`. -/
  callbackLog : List (String × ℚ)
  deriving DecidableEq, Repr

namespace SliderState

/-- `Slider.val` (property, line 153-155):
`self.slider.value() * self._scale + self._low`. -/
def val (st : SliderState) : ℚ :=
  st.step * st.scale + st.low

/-- `Slider._on_slider_changed` (lines 126-130): reads `self.val`, updates the
edit box text (not tracked), and calls `self.callback(self.name, value)`. -/
def onSliderChanged (st : SliderState) : SliderState :=
  { st with callbackLog := st.callbackLog ++ [(st.name, st.val)] }

/-- `self.slider.setValue(v)` as seen from the `Slider` widget: PyQt4
truncates the float argument to an int, Qt bounds it to the range
`[0, 1000]`, stores it, and emits `valueChanged` only if the stored value
changed.  `valueChanged` is connected to `_on_slider_changed` exactly when
`update_on = 'move'`; `sliderReleased` (the `'release'` connection) is never
emitted by a programmatic `setValue`. -/
def setSliderValue (st : SliderState) (v : ℚ) : SliderState :=
  let newStep := qtBound 0 1000 (ratTrunc v)
  if newStep = st.step then st
  else
    let st2 := { st with step := newStep }
    match st.updateOn with
    | .move => st2.onSliderChanged
    | .release => st2

/-- `Slider._good_editbox_input` (lines 147-148): white background. -/
def goodEditboxInput (st : SliderState) : SliderState :=
  { st with editboxError := false }

/-- `Slider._bad_editbox_input` (lines 150-151): red background. -/
def badEditboxInput (st : SliderState) : SliderState :=
  { st with editboxError := true }

/-- `Slider._on_editbox_changed` (lines 132-145).  The argument is the result
of `float(self.editbox.text())`: `none` when the parse raised `ValueError`
(caught by the handler), `some value` otherwise.
On bad input (parse failure or `value` outside `[low, high]`) the handler
marks the edit box and returns without touching the slider; otherwise it
computes `(value - low) / scale` (Python float division, which raises
`ZeroDivisionError` on a zero divisor), sets the slider, and clears the
error indicator. -/
def onEditboxChanged (st : SliderState) (input : Option ℚ) :
    Except PyErr SliderState :=
  match input with
  | none => .ok st.badEditboxInput
  | some value =>
    if ¬ (st.low ≤ value ∧ value ≤ st.high) then .ok st.badEditboxInput
    else
      match pydiv (value - st.low) st.scale with
      | .error e => .error e
      | .ok sliderValue => .ok ((st.setSliderValue sliderValue).goodEditboxInput)

end SliderState

namespace Slider

/-- `Slider.__init__` (lines 71-124).  Arguments `callback` and
`max_edit_width` are omitted (the callback is the event log; the width is
presentational).  Mirrors the source order: default the value to the midpoint
step 500, compute `scale`, validate `orientation` (raising `ValueError`
naming the offending value), create the `QSlider` with range `[0, 1000]` and
`setValue(value)` (no signal is connected yet, so no callback can fire),
validate `update_on` the same way, and initialise the edit box (default
stylesheet, no error indicator). -/
def init (name ptype : String) (low high : ℚ) (value : Option ℚ)
    (orientation update_on : String) : Except PyErr SliderState :=
  let v : ℚ := value.getD 500
  let scale : ℚ := (high - low) / 1000
  if orientation = "vertical" ∨ orientation = "horizontal" then
    let step := qtBound 0 1000 (ratTrunc v)
    if update_on = "move" ∨ update_on = "release" then
      .ok { name := name, ptype := ptype, low := low, high := high,
            scale := scale, step := step,
            updateOn := if update_on = "move" then .move else .release,
            editboxError := false, callbackLog := [] }
    else
      .error (.valueError
        ("Unexpected value " ++ update_on ++ " for \x27update_on\x27"))
  else
    .error (.valueError
      ("Unexpected value " ++ orientation ++ " for \x27orientation\x27"))

end Slider

/-- State of a `ComboBox` widget: the Python object fields, the child
`QComboBox` state (its item list and current index), and the callback log.
Payloads are `PyValue` because the connected `currentIndexChanged(int)`
overload delivers an integer index. -/
structure ComboBoxState where
  /-- `BaseWidget.name`. -/
  name : String
  /-- `BaseWidget.ptype`. -/
  ptype : String
  /-- The items added to the `QComboBox` by `addItems`, in order. -/
  items : List String
  /-- `QComboBox.currentIndex()`: `-1` while empty, set to `0` when the
  first item is inserted. -/
  currentIndex : ℤ
  /-- Log of callback invocations `(name, value)`. -/
  callbackLog : List (String × PyValue)
  deriving DecidableEq, Repr

namespace ComboBox

/-- `ComboBox.__init__` (lines 174-188): stores name/ptype, populates the
`QComboBox` with `items` (Qt sets the current index to 0 as soon as the first
item is inserted, and `currentIndexChanged` is connected only afterwards, so
no callback fires during construction). -/
def init (name ptype : String) (items : List String) : ComboBoxState :=
  { name := name, ptype := ptype, items := items,
    currentIndex := if items.isEmpty then -1 else 0,
    callbackLog := [] }

end ComboBox

namespace ComboBoxState

/-- The user selects the entry at index `k` of the combo box.  Qt updates the
current index and emits `currentIndexChanged` only when the index actually
changes; PyQt4 connected `_value_changed` to the default overload
`currentIndexChanged(int)`, so `BaseWidget._value_changed` (lines 35-36) runs
with the integer index and calls `self.callback(self.name, k)`. -/
def selectIndex (st : ComboBoxState) (k : ℤ) : ComboBoxState :=
  if k = st.currentIndex then st
  else
    { st with currentIndex := k,
              callbackLog := st.callbackLog ++ [(st.name, .int k)] }

/-- `ComboBox.val` (lines 192-194): evaluates `self._combo_box.value()`.
Qt4 `QComboBox` has no attribute named `value` (its accessors are
`currentIndex`, `currentText`, `itemText`, ...), so the attribute lookup
raises `AttributeError` before any call happens. -/
def val (_st : ComboBoxState) : Except PyErr String :=
  .error (.attributeError
    "\x27QComboBox\x27 object has no attribute \x27value\x27")

end ComboBoxState

deriving instance DecidableEq for Except


/-! ## Helper lemmas -/

theorem ratTrunc_intCast (n : ℤ) : ratTrunc (n : ℚ) = n := by
  unfold ratTrunc
  split
  · exact Int.floor_intCast n
  · exact Int.ceil_intCast n

theorem qtBound_of_mem (lo hi v : ℤ) (h0 : lo ≤ v) (h1 : v ≤ hi) :
    qtBound lo hi v = v := by
  unfold qtBound
  omega

/-! ## Claims -/

/-- C4: for every Slider state whose scale was set by the constructor
(`scale = (high - low) / 1000`) with `low < high`, and all steps
`s₁ ≤ s₂` in `[0, 1000]`, `val` at step `s` equals
`s * (high - low) / 1000 + low`, and `val` is monotonically non-decreasing
in the step. -/
theorem slider_val_formula_and_monotone (st : SliderState)
    (hscale : st.scale = (st.high - st.low) / 1000) (hlt : st.low < st.high)
    (s₁ s₂ : ℤ) (h0 : 0 ≤ s₁) (h12 : s₁ ≤ s₂) (h1 : s₂ ≤ 1000) :
    ({ st with step := s₁ } : SliderState).val
        = s₁ * (st.high - st.low) / 1000 + st.low ∧
    ({ st with step := s₂ } : SliderState).val
        = s₂ * (st.high - st.low) / 1000 + st.low ∧
    ({ st with step := s₁ } : SliderState).val
        ≤ ({ st with step := s₂ } : SliderState).val := by
  have hpos : (0 : ℚ) < (st.high - st.low) / 1000 := by
    apply div_pos <;> linarith
  refine ⟨?_, ?_, ?_⟩
  · simp only [SliderState.val, hscale]; ring
  · simp only [SliderState.val, hscale]; ring
  · simp only [SliderState.val, hscale]
    have hc : (s₁ : ℚ) ≤ (s₂ : ℚ) := by exact_mod_cast h12
    nlinarith

/-- Witness for C4 at the spec example slider (`low = 0`, `high = 10`),
steps 300 and 750. -/
theorem slider_val_formula_and_monotone_witness :
    ({ name := "sigma", ptype := "kwarg", low := 0, high := 10, scale := (10 - 0) / 1000,
       step := 300, updateOn := .move, editboxError := false,
       callbackLog := [] } : SliderState).val = 300 * (10 - 0) / 1000 + 0 ∧
    ({ name := "sigma", ptype := "kwarg", low := 0, high := 10, scale := (10 - 0) / 1000,
       step := 750, updateOn := .move, editboxError := false,
       callbackLog := [] } : SliderState).val = 750 * (10 - 0) / 1000 + 0 ∧
    ({ name := "sigma", ptype := "kwarg", low := 0, high := 10, scale := (10 - 0) / 1000,
       step := 300, updateOn := .move, editboxError := false,
       callbackLog := [] } : SliderState).val ≤
      ({ name := "sigma", ptype := "kwarg", low := 0, high := 10, scale := (10 - 0) / 1000,
         step := 750, updateOn := .move, editboxError := false,
         callbackLog := [] } : SliderState).val :=
  slider_val_formula_and_monotone
    { name := "sigma", ptype := "kwarg", low := 0, high := 10, scale := (10 - 0) / 1000,
      step := 300, updateOn := .move, editboxError := false, callbackLog := [] }
    (by norm_num) (by norm_num) 300 750 (by norm_num) (by norm_num) (by norm_num)

/-- C7: constructing a Slider with `value = None` (and any accepted
orientation / update trigger) sets the slider position to step 500, so the
initial `val` is the midpoint `(low + high) / 2`. -/
theorem slider_default_value_is_midpoint (name ptype : String) (low high : ℚ)
    (orientation update_on : String) (st : SliderState)
    (h : Slider.init name ptype low high none orientation update_on = .ok st) :
    st.step = 500 ∧ st.val = (low + high) / 2 := by
  simp only [Slider.init, Option.getD_none] at h
  split at h
  · split at h
    · rw [Except.ok.injEq] at h
      subst h
      constructor
      · show qtBound 0 1000 (ratTrunc (500 : ℚ)) = 500
        have h500 : ratTrunc (500 : ℚ) = 500 := by
          have : ((500 : ℤ) : ℚ) = (500 : ℚ) := by norm_num
          rw [← this, ratTrunc_intCast]
        rw [h500]
        exact qtBound_of_mem 0 1000 500 (by omega) (by omega)
      · show (qtBound 0 1000 (ratTrunc (500 : ℚ)) : ℚ) * ((high - low) / 1000) + low
            = (low + high) / 2
        have h500 : ratTrunc (500 : ℚ) = 500 := by
          have : ((500 : ℤ) : ℚ) = (500 : ℚ) := by norm_num
          rw [← this, ratTrunc_intCast]
        rw [h500]
        have hb : qtBound 0 1000 500 = 500 := qtBound_of_mem 0 1000 500 (by omega) (by omega)
        rw [hb]
        push_cast
        ring
    · exact Except.noConfusion h
  · exact Except.noConfusion h

/-- Witness for C7 at `Slider("sigma", low=0, high=10, value=None)`,
which yields `val = 5`. -/
theorem slider_default_value_is_midpoint_witness :
    ({ name := "sigma", ptype := "kwarg", low := 0, high := 10, scale := 1 / 100,
       step := 500, updateOn := .move, editboxError := false,
       callbackLog := [] } : SliderState).step = 500 ∧
    ({ name := "sigma", ptype := "kwarg", low := 0, high := 10, scale := 1 / 100,
       step := 500, updateOn := .move, editboxError := false,
       callbackLog := [] } : SliderState).val = (0 + 10) / 2 :=
  slider_default_value_is_midpoint "sigma" "kwarg" 0 10 "horizontal" "move"
    { name := "sigma", ptype := "kwarg", low := 0, high := 10, scale := 1 / 100,
      step := 500, updateOn := .move, editboxError := false, callbackLog := [] }
    (by norm_num [Slider.init, qtBound, ratTrunc])

/-- C9: constructing a Slider with a non-None value `n` passes `n` straight
to the position control as a raw step: for integer `n ∈ [0, 1000]` the
stored step is `n` itself (no conversion from the `[low, high]` range), so
the initial `val` is `n * (high - low) / 1000 + low`, not `n`. -/
theorem slider_init_value_is_raw_step (name ptype : String) (low high : ℚ)
    (n : ℤ) (h0 : 0 ≤ n) (h1 : n ≤ 1000) (st : SliderState)
    (h : Slider.init name ptype low high (some (n : ℚ)) "horizontal" "move" = .ok st) :
    st.step = n ∧ st.val = n * (high - low) / 1000 + low := by
  simp only [Slider.init, Option.getD_some] at h
  rw [if_pos (by simp), if_pos (by simp)] at h
  rw [Except.ok.injEq] at h
  subst h
  have hstep : qtBound 0 1000 (ratTrunc (n : ℚ)) = n := by
    rw [ratTrunc_intCast]
    exact qtBound_of_mem 0 1000 n h0 h1
  refine ⟨hstep, ?_⟩
  show (qtBound 0 1000 (ratTrunc (n : ℚ)) : ℚ) * ((high - low) / 1000) + low
      = n * (high - low) / 1000 + low
  rw [hstep]
  ring

/-- Witness for C9: `Slider(low=0, high=10, value=250)` stores step 250 and
has initial `val = 2.5`, not 250. -/
theorem slider_init_value_is_raw_step_witness :
    ({ name := "s", ptype := "kwarg", low := 0, high := 10, scale := 1 / 100,
       step := 250, updateOn := .move, editboxError := false,
       callbackLog := [] } : SliderState).step = 250 ∧
    ({ name := "s", ptype := "kwarg", low := 0, high := 10, scale := 1 / 100,
       step := 250, updateOn := .move, editboxError := false,
       callbackLog := [] } : SliderState).val = 250 * (10 - 0) / 1000 + 0 :=
  slider_init_value_is_raw_step "s" "kwarg" 0 10 250 (by norm_num) (by norm_num)
    { name := "s", ptype := "kwarg", low := 0, high := 10, scale := 1 / 100,
      step := 250, updateOn := .move, editboxError := false, callbackLog := [] }
    (by norm_num [Slider.init, qtBound, ratTrunc])

/-- C5: committing edit-box text that fails to parse (`none`) or parses to a
value outside `[low, high]` leaves the slider step and the callback log
unchanged and sets the error indicator on the text box. -/
theorem slider_bad_input_rejected (st : SliderState) (input : Option ℚ)
    (hbad : ∀ v, input = some v → ¬ (st.low ≤ v ∧ v ≤ st.high)) :
    st.onEditboxChanged input = .ok { st with editboxError := true } := by
  cases input with
  | none => rfl
  | some v =>
    simp only [SliderState.onEditboxChanged]
    rw [if_pos (hbad v rfl)]
    rfl

/-- Witness for C5: entering 20 in a `[0, 10]` slider is rejected with the
error indicator set and nothing else changed. -/
theorem slider_bad_input_rejected_witness :
    SliderState.onEditboxChanged
      { name := "s", ptype := "kwarg", low := 0, high := 10, scale := 1 / 100,
        step := 500, updateOn := .move, editboxError := false, callbackLog := [] }
      (some 20) =
    .ok { ({ name := "s", ptype := "kwarg", low := 0, high := 10, scale := 1 / 100,
             step := 500, updateOn := .move, editboxError := false,
             callbackLog := [] } : SliderState) with editboxError := true } :=
  slider_bad_input_rejected
    { name := "s", ptype := "kwarg", low := 0, high := 10, scale := 1 / 100,
      step := 500, updateOn := .move, editboxError := false, callbackLog := [] }
    (some 20)
    (by rintro v hv; simp only [Option.some.injEq] at hv; subst hv; norm_num)

/-- C6: for a slider with constructor-set scale, `low < high` and step in
`[0, 1000]`, committing the exact value `val(step)` in the text box leaves
the step equal to the original (hence within one discretization unit) and
clears the error indicator. -/
theorem slider_editbox_roundtrip (st : SliderState)
    (hscale : st.scale = (st.high - st.low) / 1000) (hlt : st.low < st.high)
    (h0 : 0 ≤ st.step) (h1 : st.step ≤ 1000) :
    st.onEditboxChanged (some st.val) = .ok { st with editboxError := false } := by
  have hspos : 0 < st.scale := by
    rw [hscale]; apply div_pos <;> linarith
  have hsne : st.scale ≠ 0 := ne_of_gt hspos
  have hstep0 : (0 : ℚ) ≤ (st.step : ℚ) := by exact_mod_cast h0
  have hstep1 : (st.step : ℚ) ≤ 1000 := by exact_mod_cast h1
  have hvlow : st.low ≤ st.val := by
    have := mul_nonneg hstep0 (le_of_lt hspos)
    simp only [SliderState.val]; linarith
  have hmul : (st.step : ℚ) * st.scale ≤ 1000 * st.scale :=
    mul_le_mul_of_nonneg_right hstep1 (le_of_lt hspos)
  have h1000 : (1000 : ℚ) * st.scale = st.high - st.low := by rw [hscale]; ring
  have hvhigh : st.val ≤ st.high := by
    simp only [SliderState.val]; linarith
  have hdiv : pydiv (st.val - st.low) st.scale = .ok (st.step : ℚ) := by
    unfold pydiv
    rw [if_neg hsne]
    congr 1
    simp only [SliderState.val]
    field_simp
  have hset : st.setSliderValue (st.step : ℚ) = st := by
    simp only [SliderState.setSliderValue]
    rw [ratTrunc_intCast, qtBound_of_mem 0 1000 st.step h0 h1]
    simp
  simp only [SliderState.onEditboxChanged]
  rw [if_neg (not_not_intro ⟨hvlow, hvhigh⟩), hdiv]
  show Except.ok ((st.setSliderValue (st.step : ℚ)).goodEditboxInput) = _
  rw [hset]
  rfl

/-- Witness for C6 at a `[0, 10]` slider at step 500 (value 5). -/
theorem slider_editbox_roundtrip_witness :
    SliderState.onEditboxChanged
      { name := "s", ptype := "kwarg", low := 0, high := 10, scale := 1 / 100,
        step := 500, updateOn := .move, editboxError := true, callbackLog := [] }
      (some (SliderState.val
        { name := "s", ptype := "kwarg", low := 0, high := 10, scale := 1 / 100,
          step := 500, updateOn := .move, editboxError := true, callbackLog := [] })) =
    .ok { ({ name := "s", ptype := "kwarg", low := 0, high := 10, scale := 1 / 100,
             step := 500, updateOn := .move, editboxError := true,
             callbackLog := [] } : SliderState) with editboxError := false } :=
  slider_editbox_roundtrip
    { name := "s", ptype := "kwarg", low := 0, high := 10, scale := 1 / 100,
      step := 500, updateOn := .move, editboxError := true, callbackLog := [] }
    (by norm_num) (by norm_num) (by norm_num) (by norm_num)

/-- C10: for a slider constructed with `low = high` (so `scale = 0`),
committing text that parses exactly to that shared bound passes the range
check and then raises `ZeroDivisionError` in `(value - low) / scale`. -/
theorem slider_equal_bounds_zero_division (st : SliderState)
    (heq : st.low = st.high) (hscale : st.scale = (st.high - st.low) / 1000) :
    st.onEditboxChanged (some st.low) = .error .zeroDivisionError := by
  have hzero : st.scale = 0 := by
    rw [hscale, heq]; simp
  have hin : st.low ≤ st.low ∧ st.low ≤ st.high := ⟨le_refl _, by rw [heq]⟩
  simp only [SliderState.onEditboxChanged]
  rw [if_neg (not_not_intro hin)]
  have hdiv : pydiv (st.low - st.low) st.scale = .error .zeroDivisionError := by
    unfold pydiv
    rw [if_pos hzero]
  rw [hdiv]

/-- Witness for C10 at `Slider(low=3, high=3)` with the text "3" committed. -/
theorem slider_equal_bounds_zero_division_witness :
    SliderState.onEditboxChanged
      { name := "s", ptype := "kwarg", low := 3, high := 3, scale := 0,
        step := 500, updateOn := .move, editboxError := false, callbackLog := [] }
      (some 3) = .error .zeroDivisionError :=
  slider_equal_bounds_zero_division
    { name := "s", ptype := "kwarg", low := 3, high := 3, scale := 0,
      step := 500, updateOn := .move, editboxError := false, callbackLog := [] }
    (by norm_num) (by norm_num)

/-- C3 counterexample: a slider in `update_on='release'` mode with range
`[0, 10]` at step 500; committing the in-range text value 7.5 moves the
slider to step 750 and clears the error indicator, but the callback log
stays empty — `setValue` emits `valueChanged`, which is not connected in
release mode, and never emits `sliderReleased` — contradicting the claim
that the callback fires whatever the update-trigger mode. -/
theorem slider_editbox_release_mode_counterexample :
    SliderState.onEditboxChanged
      { name := "s", ptype := "kwarg", low := 0, high := 10, scale := 1 / 100,
        step := 500, updateOn := .release, editboxError := false, callbackLog := [] }
      (some (15 / 2)) =
    .ok { name := "s", ptype := "kwarg", low := 0, high := 10, scale := 1 / 100,
          step := 750, updateOn := .release, editboxError := false,
          callbackLog := [] } ∧
    ({ name := "s", ptype := "kwarg", low := 0, high := 10, scale := 1 / 100,
       step := 750, updateOn := .release, editboxError := false,
       callbackLog := [] } : SliderState).callbackLog = [] := by
  constructor
  · norm_num [SliderState.onEditboxChanged, SliderState.setSliderValue, pydiv, qtBound,
      ratTrunc, SliderState.goodEditboxInput, SliderState.badEditboxInput]
  · rfl

/-- C3 as amended: in `update_on='move'` mode, committing text that parses
to a value in `[low, high]` whose step differs from the current one updates
the slider position to that step, clears the error indicator, and fires the
callback exactly once with `(name, val)` for the new position.  (In release
mode, or when the committed step equals the current one, the position and
indicator still update but no callback fires.) -/
theorem slider_editbox_commit_fires_on_move (st : SliderState) (value : ℚ)
    (hmove : st.updateOn = .move)
    (hlow : st.low ≤ value) (hhigh : value ≤ st.high)
    (hsne : st.scale ≠ 0)
    (hchanged : qtBound 0 1000 (ratTrunc ((value - st.low) / st.scale)) ≠ st.step) :
    st.onEditboxChanged (some value) =
      .ok { st with
        step := qtBound 0 1000 (ratTrunc ((value - st.low) / st.scale)),
        editboxError := false,
        callbackLog := st.callbackLog ++
          [(st.name,
            (qtBound 0 1000 (ratTrunc ((value - st.low) / st.scale)) : ℚ) * st.scale
              + st.low)] } := by
  simp only [SliderState.onEditboxChanged]
  rw [if_neg (not_not_intro ⟨hlow, hhigh⟩)]
  have hdiv : pydiv (value - st.low) st.scale = .ok ((value - st.low) / st.scale) := by
    unfold pydiv; rw [if_neg hsne]
  rw [hdiv]
  show Except.ok ((st.setSliderValue ((value - st.low) / st.scale)).goodEditboxInput) = _
  simp only [SliderState.setSliderValue]
  rw [if_neg hchanged, hmove]
  simp only [SliderState.onSliderChanged, SliderState.goodEditboxInput, SliderState.val]

/-- Witness for the amended C3: a move-mode `[0, 10]` slider at step 500
accepts 7.5, moves to step 750 and logs one callback `("s", 7.5)`. -/
theorem slider_editbox_commit_fires_on_move_witness :
    SliderState.onEditboxChanged
      { name := "s", ptype := "kwarg", low := 0, high := 10, scale := 1 / 100,
        step := 500, updateOn := .move, editboxError := false, callbackLog := [] }
      (some (15 / 2)) =
    .ok { ({ name := "s", ptype := "kwarg", low := 0, high := 10, scale := 1 / 100,
             step := 500, updateOn := .move, editboxError := false,
             callbackLog := [] } : SliderState) with
          step := qtBound 0 1000 (ratTrunc (((15 / 2 : ℚ) - 0) / (1 / 100))),
          editboxError := false,
          callbackLog := [] ++
            [("s",
              (qtBound 0 1000 (ratTrunc (((15 / 2 : ℚ) - 0) / (1 / 100))) : ℚ) * (1 / 100)
                + 0)] } :=
  slider_editbox_commit_fires_on_move
    { name := "s", ptype := "kwarg", low := 0, high := 10, scale := 1 / 100,
      step := 500, updateOn := .move, editboxError := false, callbackLog := [] }
    (15 / 2) rfl (by norm_num) (by norm_num) (by norm_num)
    (by norm_num [qtBound, ratTrunc])

/-- C8: constructing a Slider with an orientation outside
`{'horizontal', 'vertical'}` raises `ValueError` naming the offending value,
and (with a valid orientation) an update trigger outside
`{'move', 'release'}` likewise raises `ValueError` naming the offending
value. -/
theorem slider_invalid_config_raises (name ptype : String) (low high : ℚ)
    (value : Option ℚ) (orientation update_on : String)
    (ho1 : orientation ≠ "vertical") (ho2 : orientation ≠ "horizontal")
    (hu1 : update_on ≠ "move") (hu2 : update_on ≠ "release") :
    Slider.init name ptype low high value orientation update_on =
      .error (.valueError
        ("Unexpected value " ++ orientation ++ " for \x27orientation\x27")) ∧
    Slider.init name ptype low high value "horizontal" update_on =
      .error (.valueError
        ("Unexpected value " ++ update_on ++ " for \x27update_on\x27")) := by
  constructor
  · simp only [Slider.init]
    rw [if_neg (by push_neg; exact ⟨ho1, ho2⟩)]
  · simp only [Slider.init]
    rw [if_pos (by simp), if_neg (by push_neg; exact ⟨hu1, hu2⟩)]

/-- Witness for C8 with orientation "diagonal" and update trigger
"sometimes". -/
theorem slider_invalid_config_raises_witness :
    Slider.init "s" "kwarg" 0 1 none "diagonal" "sometimes" =
      .error (.valueError
        ("Unexpected value " ++ "diagonal" ++ " for \x27orientation\x27")) ∧
    Slider.init "s" "kwarg" 0 1 none "horizontal" "sometimes" =
      .error (.valueError
        ("Unexpected value " ++ "sometimes" ++ " for \x27update_on\x27")) :=
  slider_invalid_config_raises "s" "kwarg" 0 1 none "diagonal" "sometimes"
    (by decide) (by decide) (by decide) (by decide)

/-- C1 (code bug): on the combo box `ComboBox('color', ['red', 'green'])`,
reading the `val` property raises `AttributeError` — the source calls
`self._combo_box.value()`, a method Qt4 `QComboBox` does not have — instead
of returning the selected item `'red'` as specified. -/
theorem combobox_val_raises_attribute_error :
    (ComboBox.init "color" "kwarg" ["red", "green"]).val =
      .error (.attributeError
        "\x27QComboBox\x27 object has no attribute \x27value\x27") ∧
    (ComboBox.init "color" "kwarg" ["red", "green"]).val ≠ .ok "red" := by
  decide

/-- C2 counterexample: on `ComboBox('color', ['red', 'green'])`, selecting
index 1 invokes the callback once, but with the integer index 1 — the
payload of the default `currentIndexChanged(int)` overload — not with the
item string `'green'` as the claim states. -/
theorem combobox_callback_index_counterexample :
    ((ComboBox.init "color" "kwarg" ["red", "green"]).selectIndex 1).callbackLog =
      [("color", PyValue.int 1)] ∧
    PyValue.int 1 ≠ PyValue.str "green" := by
  decide

/-- C2 as amended: every selection change to index `k` (a valid index
different from the current one) invokes the callback exactly once, with the
pair `(name, k)` — the newly selected integer index, not the item string. -/
theorem combobox_selection_invokes_callback_with_index (st : ComboBoxState)
    (k : ℤ) (hvalid : 0 ≤ k ∧ k < (st.items.length : ℤ))
    (hchange : k ≠ st.currentIndex) :
    (st.selectIndex k).callbackLog = st.callbackLog ++ [(st.name, .int k)] := by
  simp only [ComboBoxState.selectIndex]
  rw [if_neg hchange]

/-- Witness for the amended C2 on `ComboBox('color', ['red', 'green'])`
selecting index 1. -/
theorem combobox_selection_invokes_callback_with_index_witness :
    ((ComboBox.init "color" "kwarg" ["red", "green"]).selectIndex 1).callbackLog =
      (ComboBox.init "color" "kwarg" ["red", "green"]).callbackLog ++
        [((ComboBox.init "color" "kwarg" ["red", "green"]).name, .int 1)] :=
  combobox_selection_invokes_callback_with_index
    (ComboBox.init "color" "kwarg" ["red", "green"]) 1 (by decide) (by decide)
